import Mathlib

/-
  Verification of the renderman core (src/renderman/core.py) against its
  natural-language specification.

  The Python module is shallowly embedded: dataclasses become structures,
  the external collaborators (file system reads, HTTP GET, the kustomize
  and helmfile subprocesses, Python's str.format) become an explicit
  environment of oracle functions, and the in-place mutation performed by
  the renderers becomes explicit state passing (each render operation
  returns the renders together with the updated Config).
-/

set_option maxRecDepth 4000

-- ---------------------------------------------------------------------------
-- Basic type aliases mirroring the source's type aliases
-- ---------------------------------------------------------------------------

abbrev AppName := String
abbrev Document := String
abbrev FilePath' := String
abbrev URL := String
abbrev Source := String
abbrev RenderType := String
abbrev ExitCode := Nat

deriving instance DecidableEq for Except

/-- YAML_SEPARATOR constant from the source. -/
def YAML_SEPARATOR : String := "---"

/-- HELMFILE_NAME constant from the source. -/
def HELMFILE_NAME : String := "helmfile.yaml"

-- ---------------------------------------------------------------------------
-- String helpers modelling the Python string operations used by the source
-- ---------------------------------------------------------------------------

/-- Models Python str.startswith: a character-list prefix test. -/
def strStartsWith (pre s : String) : Bool :=
  pre.toList.isPrefixOf s.toList

/-- Models Python str.endswith: a character-list suffix test. -/
def strEndsWith (suf s : String) : Bool :=
  suf.toList.isSuffixOf s.toList

/-- Models Python str.lstrip(chars): drop leading characters that are members
of the given character set. -/
def pyLstripChars (cs : List Char) (s : String) : String :=
  String.mk (s.toList.dropWhile (fun c => cs.contains c))

/-- Models Python str.rstrip(chars): drop trailing characters that are members
of the given character set. -/
def pyRstripChars (cs : List Char) (s : String) : String :=
  String.mk ((s.toList.reverse.dropWhile (fun c => cs.contains c)).reverse)

/-- The ASCII whitespace characters stripped by Python str.strip(). -/
def pyWhitespace : List Char := [' ', '\t', '\n', '\r', Char.ofNat 11, Char.ofNat 12]

/-- Models Python str.strip() with no argument: strip whitespace on both ends. -/
def pyStrip (s : String) : String :=
  pyRstripChars pyWhitespace (pyLstripChars pyWhitespace s)

/-- Models os.path.join for the two-argument calls made by the source:
an absolute second component replaces the first, otherwise the components
are joined with a single "/". -/
def pathJoin (a b : String) : String :=
  if strStartsWith "/" b then b
  else if a = "" then b
  else if strEndsWith "/" a then a ++ b
  else a ++ "/" ++ b

-- ---------------------------------------------------------------------------
-- Source Model (config file schema dataclasses)
-- ---------------------------------------------------------------------------

/-- Bundle dataclass: a named collection of local/remote manifest sources
with interpolation data. -/
structure Bundle where
  app_name : AppName
  bundle_name : String
  data : List (String × String) := []
  sources : List Source := []
deriving Repr, DecidableEq

/-- Kustomization dataclass. -/
structure Kustomization where
  app_name : AppName
  kustomization_name : String
  source : Source
deriving Repr, DecidableEq

/-- Release dataclass.  The helmfile field is optional; Python's
`release.helmfile or default` treats an empty string as absent. -/
structure Release where
  app_name : AppName
  release_name : String
  chart_name : String
  chart_version : String
  helmfile : Option FilePath' := none
deriving Repr, DecidableEq

/-- App dataclass. -/
structure App where
  enabled : Bool := true
  releases : List Release := []
  bundles : List Bundle := []
  kustomizations : List Kustomization := []
deriving Repr, DecidableEq

/-- Renderman dataclass: the apps dict is modelled as an insertion-ordered
association list, matching Python dict iteration order. -/
structure Renderman where
  schema_version : String := "1"
  apps : List (AppName × App) := []
deriving Repr, DecidableEq

/-- Config dataclass. -/
structure Config where
  renderman : Renderman
deriving Repr, DecidableEq

/-- The type of the substitution oracle modelling Python's
`s.format(data)` where `data` is passed as a single positional argument
(as the source does in Bundle.paths and Bundle.urls). -/
abbrev FormatFn := List (String × String) → String → String

/-- Bundle.paths / Bundle.urls first build
`data = {k: v.format(self.data) for k, v in self.data.items()}`. -/
def Bundle.resolved_data (b : Bundle) (fmt : FormatFn) : List (String × String) :=
  b.data.map (fun kv => (kv.1, fmt b.data kv.2))

/-- Bundle.paths property: the non-URL sources, each substituted with the
resolved data mapping.  The `http` prefix test is applied to the raw source. -/
def Bundle.paths (b : Bundle) (fmt : FormatFn) : List FilePath' :=
  (b.sources.filter (fun s => !(strStartsWith "http" s))).map
    (fun s => fmt (b.resolved_data fmt) s)

/-- Bundle.source_type property. -/
def Bundle.source_type (_ : Bundle) : RenderType := "bundle"

/-- Bundle.urls property: the URL-prefixed sources, substituted identically. -/
def Bundle.urls (b : Bundle) (fmt : FormatFn) : List URL :=
  (b.sources.filter (fun s => strStartsWith "http" s)).map
    (fun s => fmt (b.resolved_data fmt) s)

/-- Kustomization.source_type property. -/
def Kustomization.source_type (_ : Kustomization) : RenderType := "kustomization"

/-- Release.source_type property. -/
def Release.source_type (_ : Release) : RenderType := "release"

-- ---------------------------------------------------------------------------
-- Environment of external collaborators
-- ---------------------------------------------------------------------------

/-- The external collaborators the renderers call, as oracle functions:
file reads, HTTP GET, the kustomize and helmfile subprocesses, Python's
str.format, and the SOURCE_DIR global.  Each fallible collaborator returns
`Except` with the captured exception text. -/
structure Env where
  fmt : FormatFn
  readFile : FilePath' → Except String Document
  httpGet : URL → Except String Document
  kustomizeBuild : Source → Except String Document
  helmfileTemplate : FilePath' → AppName → Except String Document
  source_dir : FilePath'

-- ---------------------------------------------------------------------------
-- Render and the per-source render functions
-- ---------------------------------------------------------------------------

/-- Render dataclass: one rendering attempt's outcome for one source.
The Python error field holds an Exception; it is modelled as its text. -/
structure Render where
  app_name : AppName
  source_type : RenderType
  source : Source
  document : Option Document := none
  error : Option String := none
deriving Repr, DecidableEq

/-- The body-normalization performed on a fetched remote document:
`strip()`, then `lstrip("---\n")`, then `rstrip("\n---")` (the lstrip and
rstrip arguments are character sets in Python). -/
def normalize_remote_document (body : String) : Document :=
  let document := pyStrip body
  let document := pyLstripChars (YAML_SEPARATOR ++ "\n").toList document
  pyRstripChars ("\n" ++ YAML_SEPARATOR).toList document

/-- render_bundle: one Render per local path (file read), then one Render
per URL (HTTP GET plus separator normalization), failures captured on the
Render's error field. -/
def render_bundle (env : Env) (bundle : Bundle) : List Render :=
  let pathRenders := (bundle.paths env.fmt).map (fun file_path =>
    match env.readFile file_path with
    | Except.ok document =>
        { app_name := bundle.app_name, source_type := bundle.source_type,
          source := file_path, document := some document, error := none }
    | Except.error e =>
        { app_name := bundle.app_name, source_type := bundle.source_type,
          source := file_path, document := none, error := some e })
  let urlRenders := (bundle.urls env.fmt).map (fun url =>
    match env.httpGet url with
    | Except.ok body =>
        { app_name := bundle.app_name, source_type := bundle.source_type,
          source := url, document := some (normalize_remote_document body),
          error := none }
    | Except.error e =>
        { app_name := bundle.app_name, source_type := bundle.source_type,
          source := url, document := none, error := some e })
  pathRenders ++ urlRenders

/-- render_kustomization: one Render per kustomization via the kustomize
build subprocess. -/
def render_kustomization (env : Env) (kustomization : Kustomization) : List Render :=
  match env.kustomizeBuild kustomization.source with
  | Except.ok document =>
      [{ app_name := kustomization.app_name, source_type := kustomization.source_type,
         source := kustomization.source, document := some document, error := none }]
  | Except.error e =>
      [{ app_name := kustomization.app_name, source_type := kustomization.source_type,
         source := kustomization.source, document := none, error := some e }]

/-- The helmfile path used by render_release: the release's configured
helmfile if present (`release.helmfile or default`, where Python `or`
treats an empty string as absent), else helmfile.yaml beside the config
file. -/
def effective_helmfile_path (env : Env) (release : Release) : FilePath' :=
  match release.helmfile with
  | some p => if p = "" then pathJoin env.source_dir HELMFILE_NAME else p
  | none => pathJoin env.source_dir HELMFILE_NAME

/-- render_release: resolve the helmfile path, then one Render via the
helmfile template subprocess, addressed by the helmfile path. -/
def render_release (env : Env) (release : Release) : List Render :=
  let helmfile_path := effective_helmfile_path env release
  match env.helmfileTemplate helmfile_path release.app_name with
  | Except.ok document =>
      [{ app_name := release.app_name, source_type := release.source_type,
         source := helmfile_path, document := some document, error := none }]
  | Except.error e =>
      [{ app_name := release.app_name, source_type := release.source_type,
         source := helmfile_path, document := none, error := some e }]

-- ---------------------------------------------------------------------------
-- The three renderers (with their in-place app_name mutation made explicit)
-- ---------------------------------------------------------------------------

/-- The bundles collected by BundleRenderer.render: every bundle of every
requested app, with its app_name field set to the containing app's key
(the source sets `release.app_name = loaded_app_name` in place). -/
def selectBundles (config : Config) (app_names : List AppName) : List Bundle :=
  ((config.renderman.apps.filter (fun p => decide (p.1 ∈ app_names))).map
    (fun p => p.2.bundles.map (fun b => { b with app_name := p.1 }))).flatten

/-- The apps list after BundleRenderer.render's in-place
`release.app_name = loaded_app_name` assignment, made explicit. -/
def mutateBundlesApps (apps : List (AppName × App)) (app_names : List AppName) :
    List (AppName × App) :=
  apps.map (fun p =>
    if p.1 ∈ app_names then
      (p.1, { p.2 with bundles := p.2.bundles.map (fun b => { b with app_name := p.1 }) })
    else p)

/-- The Config state after BundleRenderer.render. -/
def mutateBundles (config : Config) (app_names : List AppName) : Config :=
  { config with renderman := { config.renderman with
      apps := mutateBundlesApps config.renderman.apps app_names } }

/-- BundleRenderer.render: collect the requested apps' bundles (mutating
each bundle's app_name in place) and render each with render_bundle.
The source_types argument is accepted but never used by the source. -/
def BundleRenderer.render (env : Env) (config : Config)
    (app_names : List AppName) (_source_types : List RenderType) :
    List Render × Config :=
  (((selectBundles config app_names).map (render_bundle env)).flatten,
   mutateBundles config app_names)

/-- The kustomizations collected by KustomizationRenderer.render. -/
def selectKustomizations (config : Config) (app_names : List AppName) : List Kustomization :=
  ((config.renderman.apps.filter (fun p => decide (p.1 ∈ app_names))).map
    (fun p => p.2.kustomizations.map (fun k => { k with app_name := p.1 }))).flatten

/-- The apps list after KustomizationRenderer.render's in-place app_name
assignment. -/
def mutateKustomizationsApps (apps : List (AppName × App)) (app_names : List AppName) :
    List (AppName × App) :=
  apps.map (fun p =>
    if p.1 ∈ app_names then
      (p.1, { p.2 with kustomizations := p.2.kustomizations.map (fun k => { k with app_name := p.1 }) })
    else p)

/-- The Config state after KustomizationRenderer.render. -/
def mutateKustomizations (config : Config) (app_names : List AppName) : Config :=
  { config with renderman := { config.renderman with
      apps := mutateKustomizationsApps config.renderman.apps app_names } }

/-- KustomizationRenderer.render. -/
def KustomizationRenderer.render (env : Env) (config : Config)
    (app_names : List AppName) (_source_types : List RenderType) :
    List Render × Config :=
  (((selectKustomizations config app_names).map (render_kustomization env)).flatten,
   mutateKustomizations config app_names)

/-- The releases collected by ReleaseRenderer.render. -/
def selectReleases (config : Config) (app_names : List AppName) : List Release :=
  ((config.renderman.apps.filter (fun p => decide (p.1 ∈ app_names))).map
    (fun p => p.2.releases.map (fun r => { r with app_name := p.1 }))).flatten

/-- The apps list after ReleaseRenderer.render's in-place app_name
assignment. -/
def mutateReleasesApps (apps : List (AppName × App)) (app_names : List AppName) :
    List (AppName × App) :=
  apps.map (fun p =>
    if p.1 ∈ app_names then
      (p.1, { p.2 with releases := p.2.releases.map (fun r => { r with app_name := p.1 }) })
    else p)

/-- The Config state after ReleaseRenderer.render. -/
def mutateReleases (config : Config) (app_names : List AppName) : Config :=
  { config with renderman := { config.renderman with
      apps := mutateReleasesApps config.renderman.apps app_names } }

/-- ReleaseRenderer.render. -/
def ReleaseRenderer.render (env : Env) (config : Config)
    (app_names : List AppName) (_source_types : List RenderType) :
    List Render × Config :=
  (((selectReleases config app_names).map (render_release env)).flatten,
   mutateReleases config app_names)

/-- get_renders: run the three renderers in fixed order (bundle,
kustomization, release) with the same filters and concatenate; the Config
state (carrying the renderers' in-place mutations) threads through. -/
def get_renders (env : Env) (config : Config)
    (app_names : List AppName) (source_types : List RenderType) :
    List Render × Config :=
  let br := BundleRenderer.render env config app_names source_types
  let kr := KustomizationRenderer.render env br.2 app_names source_types
  let rr := ReleaseRenderer.render env kr.2 app_names source_types
  (br.1 ++ kr.1 ++ rr.1, rr.2)

-- ---------------------------------------------------------------------------
-- Manifests
-- ---------------------------------------------------------------------------

/-- The sections of a manifest document:
`[r.document for r in renders if r.document]`, where Python truthiness
excludes both a missing document (None) and an empty-string document. -/
def manifest_sections (renders : List Render) : List Document :=
  renders.filterMap (fun r =>
    match r.document with
    | none => none
    | some d => if d = "" then none else some d)

/-- Manifest: a rendered manifest for an app and source type, holding the
Render objects it was built from (its declared constructor contract). -/
structure Manifest where
  app_name : AppName
  source_type : RenderType
  renders : List Render
deriving Repr, DecidableEq

/-- Manifest.document property: the truthy section documents joined with
a YAML document separator line. -/
def Manifest.document (m : Manifest) : Document :=
  String.intercalate "\n---\n" (manifest_sections m.renders)

/-- Manifest.file_path: `<output_dir>/<app_name>/<source_type>.manifest.yaml`. -/
def Manifest.file_path (m : Manifest) (output_dir : FilePath') : FilePath' :=
  pathJoin (pathJoin output_dir m.app_name) (m.source_type ++ ".manifest.yaml")

-- ---------------------------------------------------------------------------
-- get_manifests, as actually written by the source
-- ---------------------------------------------------------------------------

/-- The Manifest object as actually constructed by get_manifests: the
source appends `render.document` (a str or None) to each group instead of
the Render object, so the constructed object's renders attribute holds
Optional document values, not Render objects. -/
structure GroupedManifest where
  app_name : AppName
  source_type : RenderType
  renders : List (Option Document)
deriving Repr, DecidableEq

/-- Evaluating the document property on a Manifest constructed by
get_manifests: the comprehension `[r.document for r in self.renders if
r.document]` evaluates the document attribute of each stored element, but
the stored elements are str or None values, neither of which has a
document attribute, so the first element raises AttributeError.  The empty
group joins to the empty string before any attribute access. -/
def GroupedManifest.documentDyn (m : GroupedManifest) : Except String Document :=
  match m.renders with
  | [] => Except.ok ""
  | _ :: _ => Except.error "AttributeError: object has no attribute document"

/-- The first-seen-order group keys of a render list. -/
def groupKeys (renders : List Render) : List (AppName × RenderType) :=
  renders.foldl (fun acc r =>
    if (r.app_name, r.source_type) ∈ acc then acc
    else acc ++ [(r.app_name, r.source_type)]) []

/-- get_manifests: partition renders by (app_name, source_type) in
first-seen group order, preserving within-group order; each group's stored
values are the renders' document attributes (the source appends
`render.document`, not `render`). -/
def get_manifests (renders : List Render) : List GroupedManifest :=
  (groupKeys renders).map (fun key =>
    { app_name := key.1, source_type := key.2,
      renders := (renders.filter (fun r =>
        decide (r.app_name = key.1 ∧ r.source_type = key.2))).map
        (fun r => r.document) })

-- ---------------------------------------------------------------------------
-- Filesystem model and the reconciler
-- ---------------------------------------------------------------------------

/-- A path p lies strictly under directory d. -/
def underDir (d p : FilePath') : Bool :=
  (d ++ "/").toList.isPrefixOf p.toList

/-- Filesystem state: the set of existing directories and the files with
their contents.  The OS is an external collaborator; this models the
operations the reconciler performs on it. -/
structure FSState where
  dirs : List FilePath' := []
  files : List (FilePath' × String) := []
deriving Repr, DecidableEq

/-- Write (create or overwrite) a file. -/
def writeFileFS (fs : FSState) (p : FilePath') (content : String) : FSState :=
  { fs with files := (p, content) :: fs.files.filter (fun q => decide (q.1 ≠ p)) }

/-- Create a directory (os.makedirs with exist_ok; ancestor creation is
not observed by any modelled query). -/
def mkdirFS (fs : FSState) (d : FilePath') : FSState :=
  { fs with dirs := if d ∈ fs.dirs then fs.dirs else d :: fs.dirs }

/-- shutil.rmtree(d, ignore_errors=True): remove the directory and
everything under it. -/
def rmtreeFS (d : FilePath') (fs : FSState) : FSState :=
  { dirs := fs.dirs.filter (fun x => decide (x ≠ d) && !underDir d x),
    files := fs.files.filter (fun q => !underDir d q.1) }

/-- The files under directory d, keyed by their path relative to d. -/
def relFilesUnder (d : FilePath') (fs : FSState) : List (String × String) :=
  fs.files.filterMap (fun q =>
    if underDir d q.1 then some (q.1.drop (d.length + 1), q.2) else none)

/-- Look up a relative path in a listed tree. -/
def lookupFile (l : List (String × String)) (k : String) : Option String :=
  (l.find? (fun q => decide (q.1 = k))).map (fun q => q.2)

/-- The external recursive tree-diff tool (`diff -r -u a b`): exit code 0
when the trees hold the same files with the same contents, 1 when they
differ, and 2 (trouble) when an operand directory does not exist. -/
def runDiffTool (fs : FSState) (a b : FilePath') : ExitCode :=
  if a ∈ fs.dirs && b ∈ fs.dirs then
    let fa := relFilesUnder a fs
    let fb := relFilesUnder b fs
    if fa.all (fun q => lookupFile fb q.1 = some q.2) &&
       fb.all (fun q => lookupFile fa q.1 = some q.2) then 0 else 1
  else 2

/-- Manifest.save: makedirs the manifest's parent directory, then write
the joined truthy sections to the manifest path, returning the path. -/
def Manifest.save (m : Manifest) (output_dir : FilePath') (fs : FSState) :
    FilePath' × FSState :=
  let manifest_path := m.file_path output_dir
  let fs := mkdirFS fs (pathJoin output_dir m.app_name)
  let fs := writeFileFS fs manifest_path
    (String.intercalate "\n---\n" (manifest_sections m.renders))
  (manifest_path, fs)

/-- save_manifests: save each manifest in order into the output directory
and return the written paths. -/
def save_manifests (manifests : List Manifest) (output_dir : FilePath')
    (fs : FSState) : List FilePath' × FSState :=
  match manifests with
  | [] => ([], fs)
  | m :: ms =>
    let r := m.save output_dir fs
    let rest := save_manifests ms output_dir r.2
    (r.1 :: rest.1, rest.2)

/-- diff_manifests: the `with TemporaryDirectory()` block creates the
staging directory (modelled as a caller-chosen fresh name) and deletes it
when the indented block ends -- which in the source is immediately after
save_manifests, before the diff command runs.  The diff tool then runs
against the already-deleted staging directory, its output is printed, a
second best-effort rmtree of the staging directory runs, and the diff
tool's return code is returned. -/
def diff_manifests (manifests : List Manifest) (output_dir : FilePath')
    (staging_dir : FilePath') (fs : FSState) : ExitCode × FSState :=
  let fs := mkdirFS fs staging_dir
  let fs := (save_manifests manifests staging_dir fs).2
  let fs := rmtreeFS staging_dir fs
  let returncode := runDiffTool fs staging_dir output_dir
  let fs := rmtreeFS staging_dir fs
  (returncode, fs)

/-- Comparator for sorted(paths). -/
def strLeB (a b : String) : Bool := decide (a ≤ b)

/-- Stable insertion into an ascending list (equal keys keep their
relative order), used to model Python's sorted(). -/
def insSorted (a : String) : List String → List String
  | [] => [a]
  | b :: bs => if strLeB b a then b :: insSorted a bs else a :: b :: bs

/-- Models Python sorted() on a list of strings: a stable ascending sort. -/
def pySorted (l : List String) : List String :=
  l.foldl (fun acc a => insSorted a acc) []

/-- update_manifests: stage into a temporary directory (deleted when the
with-block ends, immediately after the first save), remove the existing
output directory, recreate it, save the manifests again directly into it,
best-effort remove the staging directory, and return the sorted written
paths. -/
def update_manifests (manifests : List Manifest) (output_dir : FilePath')
    (staging_dir : FilePath') (fs : FSState) : List FilePath' × FSState :=
  let fs := mkdirFS fs staging_dir
  let fs := (save_manifests manifests staging_dir fs).2
  let fs := rmtreeFS staging_dir fs
  let fs := rmtreeFS output_dir fs
  let fs := mkdirFS fs output_dir
  let saved := save_manifests manifests output_dir fs
  let fs := rmtreeFS staging_dir saved.2
  (pySorted saved.1, fs)

-- ---------------------------------------------------------------------------
-- Concrete fixtures for scenario claims and counterexamples
-- ---------------------------------------------------------------------------

/-- A concrete external environment.  Its substitution oracle is the
identity, which agrees with Python str.format on the brace-free source
strings used by the fixtures; its file system holds ./a.yaml with content
"kind: A"; GET succeeds only on http://ok.example/m with a body wrapped in
YAML separators; the subprocess tools fail. -/
def envFix : Env :=
  { fmt := fun _ s => s,
    readFile := fun p => if p = "./a.yaml" then Except.ok "kind: A" else Except.error "FileNotFoundError",
    httpGet := fun u => if u = "http://ok.example/m" then Except.ok "---\nfoo: bar\n---\n" else Except.error "ConnectionError",
    kustomizeBuild := fun _ => Except.error "kustomize build failed",
    helmfileTemplate := fun _ _ => Except.error "helmfile template failed",
    source_dir := "" }

/-- A bundle with a single remote source whose fetch succeeds. -/
def bundleRemote : Bundle :=
  { app_name := "web", bundle_name := "remote", data := [], sources := ["http://ok.example/m"] }

/-- The C2 scenario configuration: one app "web" with one bundle holding
one local path ./a.yaml and one failing URL. -/
def cfgScenario : Config :=
  ⟨{ schema_version := "1",
     apps := [("web",
       { enabled := true, releases := [],
         bundles := [{ app_name := "web", bundle_name := "b", data := [],
                       sources := ["./a.yaml", "http://bad.example/x"] }],
         kustomizations := [] })] }⟩

/-- The successful local-path Render of the C2 scenario. -/
def renderLocalOk : Render :=
  { app_name := "web", source_type := "bundle", source := "./a.yaml",
    document := some "kind: A", error := none }

/-- The failed URL Render of the C2 scenario. -/
def renderUrlErr : Render :=
  { app_name := "web", source_type := "bundle", source := "http://bad.example/x",
    document := none, error := some "ConnectionError" }

/-- A well-formed Manifest holding the successful scenario Render. -/
def manifestFix : Manifest :=
  { app_name := "web", source_type := "bundle", renders := [renderLocalOk] }

-- ---------------------------------------------------------------------------
-- C1
-- ---------------------------------------------------------------------------

/-- C1: the claim says Update followed by Diff on the same output
directory with the same manifests returns exit status 0.  Evaluating the
code on a concrete input refutes this: diff_manifests deletes its staging
directory when the `with TemporaryDirectory()` block ends, which happens
before the diff command runs, so the external diff tool is invoked on a
nonexistent directory and exits 2; diff_manifests returns 2, not 0 --
even though Update has just written exactly the manifests being diffed. -/
theorem C1_update_then_diff_nonzero :
    (diff_manifests [manifestFix] "out" "tmp2"
      (update_manifests [manifestFix] "out" "tmp1" {}).2).1 = 2 ∧
    (diff_manifests [manifestFix] "out" "tmp2"
      (update_manifests [manifestFix] "out" "tmp1" {}).2).1 ≠ 0 ∧
    relFilesUnder "out" (update_manifests [manifestFix] "out" "tmp1" {}).2 =
      [("web/bundle.manifest.yaml", "kind: A")] := by decide

-- ---------------------------------------------------------------------------
-- C2
-- ---------------------------------------------------------------------------

/-- C2: in the scenario (one app "web", one bundle with local path
./a.yaml of content "kind: A" and one failing URL), get_renders does
yield exactly the two claimed Renders, and get_manifests does group them
into exactly one Manifest -- but that Manifest's stored renders are the
document values (str / None), not Render objects, because the source
appends render.document; evaluating its document property therefore
raises AttributeError instead of returning "kind: A", refuting the last
part of the claim. -/
theorem C2_get_manifests_attribute_error :
    (get_renders envFix cfgScenario ["web"] ["bundle"]).1 = [renderLocalOk, renderUrlErr] ∧
    get_manifests [renderLocalOk, renderUrlErr] =
      [{ app_name := "web", source_type := "bundle", renders := [some "kind: A", none] }] ∧
    (get_manifests [renderLocalOk, renderUrlErr]).map GroupedManifest.documentDyn =
      [Except.error "AttributeError: object has no attribute document"] := by decide

-- ---------------------------------------------------------------------------
-- C4
-- ---------------------------------------------------------------------------

/-- A bundle whose declaration interleaves a URL between two local paths. -/
def bundleInterleaved : Bundle :=
  { app_name := "w", bundle_name := "b", data := [],
    sources := ["./a", "http://x", "./b"] }

/-- C4 counterexample: with sources declared ["./a", "http://x", "./b"],
the bundle renderer emits the renders in order ["./a", "./b", "http://x"],
which differs from the declaration order, refuting the claim for
interleaved declarations. -/
theorem C4_counterexample_interleaved :
    (render_bundle envFix bundleInterleaved).map Render.source = ["./a", "./b", "http://x"] ∧
    (render_bundle envFix bundleInterleaved).map Render.source ≠ bundleInterleaved.sources := by decide

/-- C4 amended: for every bundle and every environment (hence regardless
of which sources fail), the bundle renderer emits one Render per source,
all local-path sources first in declaration order, then all URL sources in
declaration order, each source substituted with the bundle's resolved
data. -/
theorem C4_paths_before_urls (env : Env) (b : Bundle) :
    (render_bundle env b).map Render.source =
      (b.sources.filter (fun s => !(strStartsWith "http" s))).map
        (fun s => env.fmt (b.resolved_data env.fmt) s) ++
      (b.sources.filter (fun s => strStartsWith "http" s)).map
        (fun s => env.fmt (b.resolved_data env.fmt) s) := by
  unfold render_bundle
  simp only [List.map_append, List.map_map, Bundle.paths, Bundle.urls]
  congr 1
  · apply List.map_congr_left
    intro s _
    cases h : env.readFile (env.fmt (b.resolved_data env.fmt) s) <;>
      simp [Function.comp, h]
  · apply List.map_congr_left
    intro s _
    cases h : env.httpGet (env.fmt (b.resolved_data env.fmt) s) <;>
      simp [Function.comp, h]

-- ---------------------------------------------------------------------------
-- C6
-- ---------------------------------------------------------------------------

/-- C6: for a remote bundle source whose HTTP GET succeeds with body
"---\nfoo: bar\n---\n", the normalization pipeline (strip whitespace,
strip a leading and a trailing YAML separator line) yields exactly
"foo: bar", and the resulting Render carries that document with no
error. -/
theorem C6_remote_body_normalized :
    normalize_remote_document "---\nfoo: bar\n---\n" = "foo: bar" ∧
    render_bundle envFix bundleRemote =
      [{ app_name := "web", source_type := "bundle", source := "http://ok.example/m",
         document := some "foo: bar", error := none }] := by decide

-- ---------------------------------------------------------------------------
-- C7
-- ---------------------------------------------------------------------------

/-- C7: the output of get_renders (renders and resulting Config state) is
identical for any two requested source-type lists: the source threads the
source_types argument into every renderer but no renderer ever reads it. -/
theorem C7_source_types_ignored (env : Env) (config : Config)
    (app_names : List AppName) (st1 st2 : List RenderType) :
    get_renders env config app_names st1 = get_renders env config app_names st2 := rfl

-- ---------------------------------------------------------------------------
-- C3
-- ---------------------------------------------------------------------------

/-- Every Render emitted by render_bundle carries the bundle's app_name. -/
theorem render_bundle_app_name (env : Env) (b : Bundle) :
    ∀ r ∈ render_bundle env b, r.app_name = b.app_name := by
  intro r hr
  simp only [render_bundle, List.mem_append, List.mem_map] at hr
  rcases hr with ⟨fp, _, h⟩ | ⟨u, _, h⟩
  · subst h; cases env.readFile fp <;> rfl
  · subst h; cases env.httpGet u <;> rfl

/-- Every Render emitted by render_kustomization carries the
kustomization's app_name. -/
theorem render_kustomization_app_name (env : Env) (k : Kustomization) :
    ∀ r ∈ render_kustomization env k, r.app_name = k.app_name := by
  intro r hr
  unfold render_kustomization at hr
  cases h : env.kustomizeBuild k.source <;> rw [h] at hr <;>
    simp only [List.mem_singleton] at hr <;> subst hr <;> rfl

/-- Every Render emitted by render_release carries the release's
app_name. -/
theorem render_release_app_name (env : Env) (rel : Release) :
    ∀ r ∈ render_release env rel, r.app_name = rel.app_name := by
  intro r hr
  unfold render_release at hr
  cases h : env.helmfileTemplate (effective_helmfile_path env rel) rel.app_name <;>
    simp only [h, List.mem_singleton] at hr <;> subst hr <;> rfl

/-- Every bundle selected by the bundle renderer has its app_name set to a
requested app name. -/
theorem selectBundles_app_name (config : Config) (names : List AppName) :
    ∀ b ∈ selectBundles config names, b.app_name ∈ names := by
  intro b hb
  simp only [selectBundles, List.mem_flatten, List.mem_map, List.mem_filter] at hb
  rcases hb with ⟨l, ⟨p, ⟨hp, hdec⟩, rfl⟩, hbl⟩
  rcases List.mem_map.mp hbl with ⟨b0, _, rfl⟩
  simpa using of_decide_eq_true hdec

/-- Every kustomization selected by the kustomization renderer has its
app_name set to a requested app name. -/
theorem selectKustomizations_app_name (config : Config) (names : List AppName) :
    ∀ k ∈ selectKustomizations config names, k.app_name ∈ names := by
  intro k hk
  simp only [selectKustomizations, List.mem_flatten, List.mem_map, List.mem_filter] at hk
  rcases hk with ⟨l, ⟨p, ⟨hp, hdec⟩, rfl⟩, hkl⟩
  rcases List.mem_map.mp hkl with ⟨k0, _, rfl⟩
  simpa using of_decide_eq_true hdec

/-- Every release selected by the release renderer has its app_name set to
a requested app name. -/
theorem selectReleases_app_name (config : Config) (names : List AppName) :
    ∀ rel ∈ selectReleases config names, rel.app_name ∈ names := by
  intro rel hrel
  simp only [selectReleases, List.mem_flatten, List.mem_map, List.mem_filter] at hrel
  rcases hrel with ⟨l, ⟨p, ⟨hp, hdec⟩, rfl⟩, hrl⟩
  rcases List.mem_map.mp hrl with ⟨r0, _, rfl⟩
  simpa using of_decide_eq_true hdec

/-- Every Render produced by get_renders carries an app_name that is a
member of the requested app-name list. -/
theorem get_renders_app_name_mem (env : Env) (config : Config)
    (names : List AppName) (st : List RenderType) :
    ∀ r ∈ (get_renders env config names st).1, r.app_name ∈ names := by
  intro r hr
  simp only [get_renders, BundleRenderer.render, KustomizationRenderer.render,
    ReleaseRenderer.render, List.mem_append] at hr
  rcases hr with (hb | hk) | hrel
  · rcases List.mem_flatten.mp hb with ⟨l, hl, hrl⟩
    rcases List.mem_map.mp hl with ⟨b, hbsel, rfl⟩
    rw [render_bundle_app_name env b r hrl]
    exact selectBundles_app_name config names b hbsel
  · rcases List.mem_flatten.mp hk with ⟨l, hl, hrl⟩
    rcases List.mem_map.mp hl with ⟨k, hksel, rfl⟩
    rw [render_kustomization_app_name env k r hrl]
    exact selectKustomizations_app_name _ names k hksel
  · rcases List.mem_flatten.mp hrel with ⟨l, hl, hrl⟩
    rcases List.mem_map.mp hl with ⟨rel, hrsel, rfl⟩
    rw [render_release_app_name env rel r hrl]
    exact selectReleases_app_name _ names rel hrsel

/-- The configuration for the C3 counterexample: a single app "x" with
enabled = false holding one bundle. -/
def cfgDisabled : Config :=
  ⟨{ schema_version := "1",
     apps := [("x",
       { enabled := false, releases := [],
         bundles := [{ app_name := "x", bundle_name := "b", data := [],
                       sources := ["./a.yaml"] }],
         kustomizations := [] })] }⟩

/-- C3 counterexample: with the app "x" disabled, requesting the app-name
list ["x"] still produces a Render with app_name "x" -- the render path
never consults the enabled flag, so the claim fails for requested
app-name lists that mention a disabled app. -/
theorem C3_counterexample_disabled_requested :
    (cfgDisabled.renderman.apps.map (fun p => p.2.enabled)) = [false] ∧
    ((get_renders envFix cfgDisabled ["x"] []).1.map Render.app_name) = ["x"] := by decide

/-- C3 amended: no Render is produced for an app whose name is absent
from the requested app-name list; in particular an app with enabled =
false yields no Renders provided its name is not requested.  (The enabled
flag itself is never consulted by get_renders, so explicitly requesting a
disabled app's name does produce Renders for it.) -/
theorem C3_disabled_unrequested_not_rendered (env : Env) (config : Config)
    (names : List AppName) (st : List RenderType) (name : AppName) (app : App)
    (hmem : (name, app) ∈ config.renderman.apps)
    (hdis : app.enabled = false)
    (hreq : name ∉ names) :
    ∀ r ∈ (get_renders env config names st).1, r.app_name ≠ name := by
  intro r hr heq
  exact hreq (heq ▸ get_renders_app_name_mem env config names st r hr)

/-- The disabled app of the C3 amended witness configuration. -/
def appX : App :=
  { enabled := false, releases := [],
    bundles := [{ app_name := "x", bundle_name := "b", data := [],
                  sources := ["./a.yaml"] }],
    kustomizations := [] }

/-- The two-app configuration for the C3 amended witness: "x" is disabled
and unrequested, "web" is enabled and requested. -/
def cfgTwoApps : Config :=
  ⟨{ schema_version := "1",
     apps := [("x", appX),
       ("web",
       { enabled := true, releases := [],
         bundles := [{ app_name := "web", bundle_name := "b", data := [],
                       sources := ["./a.yaml"] }],
         kustomizations := [] })] }⟩

/-- C3 amended witness: at a concrete configuration with disabled app "x"
and requested app "web", all hypotheses hold and every produced Render's
app_name differs from "x". -/
theorem C3_disabled_unrequested_not_rendered_witness :
    ("x", appX) ∈ cfgTwoApps.renderman.apps ∧
    appX.enabled = false ∧
    ("x" : AppName) ∉ (["web"] : List AppName) ∧
    renderLocalOk ∈ (get_renders envFix cfgTwoApps ["web"] []).1 ∧
    renderLocalOk.app_name ≠ "x" := by
  refine ⟨by decide, by decide, by decide, by decide, ?_⟩
  exact C3_disabled_unrequested_not_rendered envFix cfgTwoApps ["web"] [] "x" appX
    (by decide) (by decide) (by decide) renderLocalOk (by decide)

-- ---------------------------------------------------------------------------
-- C5
-- ---------------------------------------------------------------------------

/-- Mapping a function that fixes every member of a list leaves the list
unchanged. -/
theorem map_eq_self_of_mem {α : Type} {l : List α} {f : α → α}
    (h : ∀ a ∈ l, f a = a) : l.map f = l := by
  induction l with
  | nil => rfl
  | cons a t ih =>
    simp only [List.map_cons, h a (List.mem_cons_self a t)]
    rw [ih (fun x hx => h x (List.mem_cons_of_mem a hx))]

/-- A configuration is well-named when every descriptor already carries
the name of the app containing it. -/
abbrev wellNamed (c : Config) : Prop :=
  ∀ p ∈ c.renderman.apps,
    (∀ b ∈ p.2.bundles, b.app_name = p.1) ∧
    (∀ k ∈ p.2.kustomizations, k.app_name = p.1) ∧
    (∀ r ∈ p.2.releases, r.app_name = p.1)

/-- On a well-named configuration the bundle renderer's in-place app_name
assignments change nothing. -/
theorem mutateBundles_eq_self (c : Config) (names : List AppName)
    (h : wellNamed c) : mutateBundles c names = c := by
  have happs : mutateBundlesApps c.renderman.apps names = c.renderman.apps := by
    apply map_eq_self_of_mem
    intro p hp
    by_cases hmem : p.1 ∈ names
    · have hb : p.2.bundles.map (fun b => { b with app_name := p.1 }) = p.2.bundles := by
        apply map_eq_self_of_mem
        intro b hbmem
        have hba := (h p hp).1 b hbmem
        cases b
        simp_all
      simp only [if_pos hmem, hb]
    · simp only [if_neg hmem]
  unfold mutateBundles
  rw [happs]

/-- On a well-named configuration the kustomization renderer's in-place
app_name assignments change nothing. -/
theorem mutateKustomizations_eq_self (c : Config) (names : List AppName)
    (h : wellNamed c) : mutateKustomizations c names = c := by
  have happs : mutateKustomizationsApps c.renderman.apps names = c.renderman.apps := by
    apply map_eq_self_of_mem
    intro p hp
    by_cases hmem : p.1 ∈ names
    · have hk : p.2.kustomizations.map (fun k => { k with app_name := p.1 }) = p.2.kustomizations := by
        apply map_eq_self_of_mem
        intro k hkmem
        have hka := (h p hp).2.1 k hkmem
        cases k
        simp_all
      simp only [if_pos hmem, hk]
    · simp only [if_neg hmem]
  unfold mutateKustomizations
  rw [happs]

/-- On a well-named configuration the release renderer's in-place
app_name assignments change nothing. -/
theorem mutateReleases_eq_self (c : Config) (names : List AppName)
    (h : wellNamed c) : mutateReleases c names = c := by
  have happs : mutateReleasesApps c.renderman.apps names = c.renderman.apps := by
    apply map_eq_self_of_mem
    intro p hp
    by_cases hmem : p.1 ∈ names
    · have hr : p.2.releases.map (fun r => { r with app_name := p.1 }) = p.2.releases := by
        apply map_eq_self_of_mem
        intro r hrmem
        have hra := (h p hp).2.2 r hrmem
        cases r
        simp_all
      simp only [if_pos hmem, hr]
    · simp only [if_neg hmem]
  unfold mutateReleases
  rw [happs]

/-- The configuration for the C5 counterexample: app "web" holds a bundle
whose app_name field reads "other". -/
def cfgMisnamed : Config :=
  ⟨{ schema_version := "1",
     apps := [("web",
       { enabled := true, releases := [],
         bundles := [{ app_name := "other", bundle_name := "b", data := [],
                       sources := [] }],
         kustomizations := [] })] }⟩

/-- C5 counterexample: rendering cfgMisnamed for app "web" mutates the
Source Model -- the bundle's app_name field is overwritten from "other"
to "web" by the renderer's in-place assignment, so the configuration after
get_renders differs from the one before. -/
theorem C5_counterexample_mutation :
    (get_renders envFix cfgMisnamed ["web"] []).2 ≠ cfgMisnamed ∧
    ((get_renders envFix cfgMisnamed ["web"] []).2.renderman.apps.map
      (fun p => p.2.bundles.map Bundle.app_name)) = [["web"]] ∧
    (cfgMisnamed.renderman.apps.map
      (fun p => p.2.bundles.map Bundle.app_name)) = [["other"]] := by decide

/-- C5 amended: rendering leaves the Source Model unchanged except that
each selected descriptor's app_name field is overwritten with its
containing app's name; in particular, on a well-named configuration
(every descriptor's app_name already equals its containing app's name)
get_renders leaves the Config unchanged for every environment and every
requested app-name and source-type list. -/
theorem C5_wellnamed_config_unmutated (env : Env) (c : Config)
    (names : List AppName) (st : List RenderType) (h : wellNamed c) :
    (get_renders env c names st).2 = c := by
  simp only [get_renders, BundleRenderer.render, KustomizationRenderer.render,
    ReleaseRenderer.render]
  rw [mutateBundles_eq_self c names h, mutateKustomizations_eq_self c names h,
    mutateReleases_eq_self c names h]

/-- C5 amended witness: the concrete two-app configuration is well-named
and is returned unchanged by get_renders. -/
theorem C5_wellnamed_config_unmutated_witness :
    wellNamed cfgTwoApps ∧ (get_renders envFix cfgTwoApps ["web"] []).2 = cfgTwoApps :=
  ⟨by decide, C5_wellnamed_config_unmutated envFix cfgTwoApps ["web"] [] (by decide)⟩

-- ---------------------------------------------------------------------------
-- C8
-- ---------------------------------------------------------------------------

/-- C8: every Render returned by render_bundle, render_kustomization and
render_release has exactly one of document/error set: document present and
error absent on success, or document absent and error present on failure,
for every environment and every descriptor. -/
theorem C8_exactly_one_of_document_error (env : Env) (b : Bundle)
    (k : Kustomization) (rel : Release) (r : Render) :
    (r ∈ render_bundle env b →
      (r.document.isSome = true ∧ r.error = none) ∨
      (r.document = none ∧ r.error.isSome = true)) ∧
    (r ∈ render_kustomization env k →
      (r.document.isSome = true ∧ r.error = none) ∨
      (r.document = none ∧ r.error.isSome = true)) ∧
    (r ∈ render_release env rel →
      (r.document.isSome = true ∧ r.error = none) ∨
      (r.document = none ∧ r.error.isSome = true)) := by
  refine ⟨?_, ?_, ?_⟩
  · intro hr
    simp only [render_bundle, List.mem_append, List.mem_map] at hr
    rcases hr with ⟨fp, _, h⟩ | ⟨u, _, h⟩
    · subst h
      cases env.readFile fp with
      | ok d => exact Or.inl ⟨rfl, rfl⟩
      | error e => exact Or.inr ⟨rfl, rfl⟩
    · subst h
      cases env.httpGet u with
      | ok body => exact Or.inl ⟨rfl, rfl⟩
      | error e => exact Or.inr ⟨rfl, rfl⟩
  · intro hr
    unfold render_kustomization at hr
    cases h : env.kustomizeBuild k.source <;>
      simp only [h, List.mem_singleton] at hr <;> subst hr
    · exact Or.inr ⟨rfl, rfl⟩
    · exact Or.inl ⟨rfl, rfl⟩
  · intro hr
    unfold render_release at hr
    cases h : env.helmfileTemplate (effective_helmfile_path env rel) rel.app_name <;>
      simp only [h, List.mem_singleton] at hr <;> subst hr
    · exact Or.inr ⟨rfl, rfl⟩
    · exact Or.inl ⟨rfl, rfl⟩

/-- The bundle of the C2 scenario configuration, as a named fixture. -/
def bundleScenario : Bundle :=
  { app_name := "web", bundle_name := "b", data := [],
    sources := ["./a.yaml", "http://bad.example/x"] }

/-- A concrete kustomization fixture. -/
def kustomizationFix : Kustomization :=
  { app_name := "web", kustomization_name := "k", source := "./overlay" }

/-- A concrete release fixture without a helmfile override. -/
def releaseFix : Release :=
  { app_name := "web", release_name := "r", chart_name := "c",
    chart_version := "1", helmfile := none }

/-- The failed kustomization Render under envFix. -/
def renderKustErr : Render :=
  { app_name := "web", source_type := "kustomization", source := "./overlay",
    document := none, error := some "kustomize build failed" }

/-- The failed release Render under envFix. -/
def renderRelErr : Render :=
  { app_name := "web", source_type := "release", source := "helmfile.yaml",
    document := none, error := some "helmfile template failed" }

/-- C8 witness: the exactly-one invariant, discharged at one concrete
member of each of the three render functions' outputs. -/
theorem C8_exactly_one_of_document_error_witness :
    ((renderLocalOk.document.isSome = true ∧ renderLocalOk.error = none) ∨
      (renderLocalOk.document = none ∧ renderLocalOk.error.isSome = true)) ∧
    ((renderKustErr.document.isSome = true ∧ renderKustErr.error = none) ∨
      (renderKustErr.document = none ∧ renderKustErr.error.isSome = true)) ∧
    ((renderRelErr.document.isSome = true ∧ renderRelErr.error = none) ∨
      (renderRelErr.document = none ∧ renderRelErr.error.isSome = true)) :=
  ⟨(C8_exactly_one_of_document_error envFix bundleScenario kustomizationFix releaseFix
      renderLocalOk).1 (by decide),
   (C8_exactly_one_of_document_error envFix bundleScenario kustomizationFix releaseFix
      renderKustErr).2.1 (by decide),
   (C8_exactly_one_of_document_error envFix bundleScenario kustomizationFix releaseFix
      renderRelErr).2.2 (by decide)⟩

-- ---------------------------------------------------------------------------
-- C10
-- ---------------------------------------------------------------------------

/-- Removing the empty-string-document renders from a render list does not
change the manifest sections: Python's truthiness filter already excludes
them, exactly as it excludes failed (document = None) renders. -/
theorem manifest_sections_filter_empty (rs : List Render) :
    manifest_sections rs =
      manifest_sections (rs.filter (fun r => decide (r.document ≠ some ""))) := by
  induction rs with
  | nil => rfl
  | cons r t ih =>
    cases hd : r.document with
    | none =>
      simp [manifest_sections, List.filterMap_cons, List.filter_cons, hd] at ih ⊢
      exact ih
    | some d =>
      by_cases hde : d = ""
      · subst hde
        simp [manifest_sections, List.filterMap_cons, List.filter_cons, hd] at ih ⊢
        exact ih
      · simp [manifest_sections, List.filterMap_cons, List.filter_cons, hd, hde] at ih ⊢
        exact ih

/-- A render list whose members all have an absent or empty document has
no manifest sections. -/
theorem manifest_sections_all_empty (rs : List Render)
    (h : ∀ r ∈ rs, r.document = none ∨ r.document = some "") :
    manifest_sections rs = [] := by
  induction rs with
  | nil => rfl
  | cons r t ih =>
    have ht := ih (fun x hx => h x (List.mem_cons_of_mem r hx))
    rcases h r (List.mem_cons_self r t) with hd | hd <;>
      simp [manifest_sections, List.filterMap_cons, hd] at ht ⊢ <;> exact ht

/-- C10: a Render with an empty-string document is excluded from the
joined manifest document exactly like a failed render (it contributes
neither content nor a separator); save writes exactly the document
property's text; and a group whose renders are all failed or all empty
yields the empty-string document. -/
theorem C10_empty_document_excluded (a : AppName) (t : RenderType)
    (rs : List Render) (dir : FilePath') (fs : FSState) :
    (Manifest.document ⟨a, t, rs⟩ =
      Manifest.document ⟨a, t, rs.filter (fun r => decide (r.document ≠ some ""))⟩) ∧
    (((Manifest.mk a t rs).save dir fs).2.files.head? =
      some ((Manifest.mk a t rs).file_path dir, (Manifest.mk a t rs).document)) ∧
    ((∀ r ∈ rs, r.document = none ∨ r.document = some "") →
      Manifest.document ⟨a, t, rs⟩ = "") := by
  refine ⟨?_, rfl, ?_⟩
  · simp only [Manifest.document]
    rw [← manifest_sections_filter_empty]
  · intro h
    simp only [Manifest.document, manifest_sections_all_empty rs h]
    rfl

/-- A Render whose document rendered to the empty string. -/
def renderEmptyDoc : Render :=
  { app_name := "web", source_type := "bundle", source := "./e.yaml",
    document := some "", error := none }

/-- C10 witness: a group holding one empty-document render and one failed
render yields the empty-string joined document. -/
theorem C10_empty_document_excluded_witness :
    Manifest.document ⟨"web", "bundle", [renderEmptyDoc, renderUrlErr]⟩ = "" :=
  (C10_empty_document_excluded "web" "bundle" [renderEmptyDoc, renderUrlErr]
    "out" {}).2.2 (by decide)

-- ---------------------------------------------------------------------------
-- C9
-- ---------------------------------------------------------------------------

/-- The files under a directory, with their contents, in list order. -/
def filesUnder (d : FilePath') (fs : FSState) : List (FilePath' × String) :=
  fs.files.filter (fun q => underDir d q.1)

/-- The directories under a directory, in list order. -/
def dirsUnder (d : FilePath') (fs : FSState) : List FilePath' :=
  fs.dirs.filter (fun x => underDir d x)

/-- Writing a file outside a directory does not change that directory's
files. -/
theorem filesUnder_writeFile (out p : FilePath') (c : String) (fs : FSState)
    (h : underDir out p = false) :
    filesUnder out (writeFileFS fs p c) = filesUnder out fs := by
  simp only [filesUnder, writeFileFS, List.filter_cons, h]
  rw [List.filter_filter]
  apply List.filter_congr
  intro q hq
  cases hout : underDir out q.1 with
  | false => simp
  | true =>
    have hne : q.1 ≠ p := by
      intro he
      rw [he, h] at hout
      simp at hout
    simp [hne]

/-- Writing a file changes no directories. -/
theorem dirsUnder_writeFile (out p : FilePath') (c : String) (fs : FSState) :
    dirsUnder out (writeFileFS fs p c) = dirsUnder out fs := rfl

/-- Creating a directory changes no files. -/
theorem filesUnder_mkdir (out d : FilePath') (fs : FSState) :
    filesUnder out (mkdirFS fs d) = filesUnder out fs := rfl

/-- Creating a directory outside a directory does not change that
directory's directories. -/
theorem dirsUnder_mkdir (out d : FilePath') (fs : FSState)
    (h : underDir out d = false) :
    dirsUnder out (mkdirFS fs d) = dirsUnder out fs := by
  simp only [dirsUnder, mkdirFS]
  by_cases hd : d ∈ fs.dirs
  · simp [hd]
  · simp [hd, List.filter_cons, h]

/-- Removing a tree disjoint from a directory does not change that
directory's files. -/
theorem filesUnder_rmtree (out stg : FilePath') (fs : FSState)
    (hall : ∀ p, underDir out p = true → underDir stg p = false) :
    filesUnder out (rmtreeFS stg fs) = filesUnder out fs := by
  simp only [filesUnder, rmtreeFS]
  rw [List.filter_filter]
  apply List.filter_congr
  intro q hq
  cases hout : underDir out q.1 with
  | false => simp
  | true => simp [hall q.1 hout]

/-- Removing a tree disjoint from a directory does not change that
directory's directories. -/
theorem dirsUnder_rmtree (out stg : FilePath') (fs : FSState)
    (hall : ∀ p, underDir out p = true → underDir stg p = false)
    (hstg : underDir out stg = false) :
    dirsUnder out (rmtreeFS stg fs) = dirsUnder out fs := by
  simp only [dirsUnder, rmtreeFS]
  rw [List.filter_filter]
  apply List.filter_congr
  intro x hx
  cases hout : underDir out x with
  | false => simp
  | true =>
    have hne : x ≠ stg := by
      intro he
      rw [he, hstg] at hout
      simp at hout
    simp [hall x hout, hne]

/-- One manifest save whose write path and created directory lie outside a
directory leaves that directory's files and directories unchanged. -/
theorem manifest_save_restrict (out d : FilePath') (m : Manifest) (fs : FSState)
    (h1 : underDir out (m.file_path d) = false)
    (h2 : underDir out (pathJoin d m.app_name) = false) :
    filesUnder out (m.save d fs).2 = filesUnder out fs ∧
    dirsUnder out (m.save d fs).2 = dirsUnder out fs := by
  simp only [Manifest.save]
  constructor
  · rw [filesUnder_writeFile _ _ _ _ h1]
    exact filesUnder_mkdir _ _ _
  · rw [dirsUnder_writeFile]
    exact dirsUnder_mkdir _ _ _ h2

/-- Saving manifests whose write paths and created directories all lie
outside a directory leaves that directory's files and directories
unchanged. -/
theorem save_manifests_restrict (out d : FilePath') (ms : List Manifest) (fs : FSState)
    (h : ∀ m ∈ ms, underDir out (m.file_path d) = false ∧
          underDir out (pathJoin d m.app_name) = false) :
    filesUnder out ((save_manifests ms d fs).2) = filesUnder out fs ∧
    dirsUnder out ((save_manifests ms d fs).2) = dirsUnder out fs := by
  induction ms generalizing fs with
  | nil => exact ⟨rfl, rfl⟩
  | cons m t ih =>
    have hm := h m (List.mem_cons_self m t)
    have ht : ∀ x ∈ t, underDir out (x.file_path d) = false ∧
        underDir out (pathJoin d x.app_name) = false :=
      fun x hx => h x (List.mem_cons_of_mem m hx)
    have hsave := manifest_save_restrict out d m fs hm.1 hm.2
    have hrest := ih (m.save d fs).2 ht
    simp only [save_manifests]
    exact ⟨by rw [hrest.1, hsave.1], by rw [hrest.2, hsave.2]⟩

/-- C9: diff_manifests never modifies the live output directory: provided
the staging directory is fresh (nothing under the output directory lies
under it, and it does not itself lie under the output directory) and the
manifests' write paths land inside the staging area rather than under the
output directory (true for relative app names), every file and every
directory under the output directory is identical, with identical
contents and order, before and after the Diff operation. -/
theorem C9_diff_preserves_output_dir (manifests : List Manifest)
    (output_dir staging_dir : FilePath') (fs : FSState)
    (hstg : underDir output_dir staging_dir = false)
    (hsep : ∀ p, underDir output_dir p = true → underDir staging_dir p = false)
    (hwr : ∀ m ∈ manifests,
      underDir output_dir (m.file_path staging_dir) = false ∧
      underDir output_dir (pathJoin staging_dir m.app_name) = false) :
    filesUnder output_dir (diff_manifests manifests output_dir staging_dir fs).2 =
      filesUnder output_dir fs ∧
    dirsUnder output_dir (diff_manifests manifests output_dir staging_dir fs).2 =
      dirsUnder output_dir fs := by
  simp only [diff_manifests]
  have hsave := save_manifests_restrict output_dir staging_dir manifests
    (mkdirFS fs staging_dir) hwr
  constructor
  · rw [filesUnder_rmtree _ _ _ hsep, filesUnder_rmtree _ _ _ hsep, hsave.1]
    exact filesUnder_mkdir _ _ _
  · rw [dirsUnder_rmtree _ _ _ hsep hstg, dirsUnder_rmtree _ _ _ hsep hstg, hsave.2]
    exact dirsUnder_mkdir _ _ _ hstg

/-- No path under "out" is under "tmp": the fourth character of such a
path is forced by each prefix and they disagree. -/
theorem under_out_not_under_tmp (p : FilePath')
    (h : underDir "out" p = true) : underDir "tmp" p = false := by
  cases hc : underDir "tmp" p with
  | false => rfl
  | true =>
    exfalso
    rw [underDir, List.isPrefixOf_iff_prefix] at h hc
    obtain ⟨t1, ht1⟩ := h
    obtain ⟨t2, ht2⟩ := hc
    rw [← ht1] at ht2
    simp [String.toList] at ht2

/-- An initial filesystem holding one live output file. -/
def fsFix : FSState :=
  { dirs := ["out", "out/web"], files := [("out/web/bundle.manifest.yaml", "old")] }

/-- C9 witness: at a concrete filesystem, manifest list, output directory
"out" and staging directory "tmp", all freshness hypotheses hold and the
output directory's files and directories are unchanged by Diff. -/
theorem C9_diff_preserves_output_dir_witness :
    underDir "out" "tmp" = false ∧
    (∀ m ∈ [manifestFix], underDir "out" (m.file_path "tmp") = false ∧
      underDir "out" (pathJoin "tmp" m.app_name) = false) ∧
    filesUnder "out" (diff_manifests [manifestFix] "out" "tmp" fsFix).2 =
      filesUnder "out" fsFix ∧
    dirsUnder "out" (diff_manifests [manifestFix] "out" "tmp" fsFix).2 =
      dirsUnder "out" fsFix :=
  ⟨by decide, by decide,
   (C9_diff_preserves_output_dir [manifestFix] "out" "tmp" fsFix (by decide)
     under_out_not_under_tmp (by decide)).1,
   (C9_diff_preserves_output_dir [manifestFix] "out" "tmp" fsFix (by decide)
     under_out_not_under_tmp (by decide)).2⟩
